import Mathlib

/-!
Verification of `dcp.py`, a command-line deep-copy utility.

The embedding models the copy-decision engine of `src/dcp.py`:
`Stats` (the timed accumulator), `process_stream` (chunked streaming),
`copy_file` (per-file disposition and copy), `copy_directory`
(recursive traversal) and `copy` (the dispatcher).

Modelling conventions:
* Paths are absolute and represented as their component lists
  (`Path := List String`); `str(p.absolute())` equality is path equality,
  `p.parent` is `dropLast`, `p / q` is append, `p.name` is the last
  component, `item.relative_to(source)` drops `source`'s components.
* The filesystem is an association list from paths to entries
  (first match wins); file contents are byte lists (`List Nat`).
* Python floats returned by `perf_counter` are modelled as exact
  rationals; Python's `/` raises `ZeroDivisionError` on a zero
  denominator, modelled by `pyDiv` returning an error value.
* `sha256` is modelled as a collision-free (injective) digest of the
  fed byte string: the identity function on the accumulated bytes.
  The claims under study depend only on digest equality being content
  equality, which holds for this abstraction.
* `typer.confirm` (the interactive prompt) is modelled by an `answer`
  argument supplying the user's reply.
* Raised exceptions are modelled as an `Option CopyError` component of
  the result; the in-place mutation of the shared `Stats` object is
  modelled by threading the `Stats` value through and returning it also
  on the error path.
-/

/-- An absolute path, as its list of components. -/
abbrev DPath := List String

/-- Python `Path.name`: the final path component. -/
def DPath.name (p : DPath) : String := p.getLastD ""

/-- Python `Path.parent`: the path without its final component. -/
def DPath.parent (p : DPath) : DPath := p.dropLast

/-- A filesystem entry: a regular file with byte contents, or a directory. -/
inductive Entry where
  | file (content : List Nat)
  | dir
deriving DecidableEq, Repr

/-- The filesystem: an association list from absolute paths to entries.
The first matching entry wins. -/
abbrev FS := List (DPath × Entry)

/-- Look up the entry at a path. -/
def FS.lookup (fs : FS) (p : DPath) : Option Entry :=
  (fs.find? (fun e => decide (e.1 = p))).map (·.2)

/-- Python `Path.exists()`. -/
def FS.existsAt (fs : FS) (p : DPath) : Bool :=
  (FS.lookup fs p).isSome

/-- Python `Path.is_file()`: a regular file exists at the path. -/
def FS.isFileAt (fs : FS) (p : DPath) : Bool :=
  match FS.lookup fs p with
  | some (.file _) => true
  | _ => false

/-- Python `Path.is_dir()`: a directory exists at the path. -/
def FS.isDirAt (fs : FS) (p : DPath) : Bool :=
  match FS.lookup fs p with
  | some .dir => true
  | _ => false

/-- The byte contents of the file at a path (empty if no file there). -/
def FS.contentAt (fs : FS) (p : DPath) : List Nat :=
  match FS.lookup fs p with
  | some (.file c) => c
  | _ => []

/-- Python `Path.stat().st_size` of a regular file: its byte length. -/
def FS.sizeAt (fs : FS) (p : DPath) : Nat :=
  (FS.contentAt fs p).length

/-- `open(p, 'wb')` followed by writing `c`: create or truncate-and-replace
the file at `p`. -/
def FS.writeFile (fs : FS) (p : DPath) (c : List Nat) : FS :=
  (p, .file c) :: fs.filter (fun e => !(decide (e.1 = p)))

/-- Python `Path.mkdir(exist_ok=True)` for one directory: create it when
nothing exists at the path, leave the filesystem unchanged otherwise. -/
def FS.mkdir1 (fs : FS) (p : DPath) : FS :=
  if FS.existsAt fs p then fs else (p, .dir) :: fs

/-- All nonempty prefixes of a path, shortest first. -/
def DPath.prefixes (p : DPath) : List DPath :=
  (List.range p.length).map (fun i => p.take (i + 1))

/-- Python `Path.mkdir(exist_ok=True, parents=True)`: create the directory
and any missing ancestors. -/
def FS.mkdirAll (fs : FS) (p : DPath) : FS :=
  (DPath.prefixes p).foldl FS.mkdir1 fs

/-- Python `source.rglob('*')`: every recorded path strictly below `source`,
in recording order. -/
def FS.rglob (fs : FS) (source : DPath) : List DPath :=
  (fs.map (·.1)).filter (fun p => source.isPrefixOf p && !(decide (p = source)))

/-- `process_stream(stream, callback, buffer)`, line 165 of `dcp.py`:
`while buf := stream.read(buffer): callback(buf)`.  Returned is the list of
chunks passed to the callback, in order.  `stream.read(0)` returns the empty
bytes object, which is falsy, so a zero buffer produces no invocations. -/
def process_stream_chunks (content : List Nat) (buffer : Nat) : List (List Nat) :=
  if h1 : buffer = 0 then []
  else if h2 : content = [] then []
  else content.take buffer :: process_stream_chunks (content.drop buffer) buffer
termination_by content.length
decreasing_by
  have hl : 0 < content.length := List.length_pos.mpr h2
  simp only [List.length_drop]
  omega

/-- The bytes a consumer of `process_stream` receives in total: the
concatenation of the chunks. -/
def streamedBytes (content : List Nat) (buffer : Nat) : List Nat :=
  (process_stream_chunks content buffer).flatten

/-- `hashlib.sha256` over the fed bytes, abstracted as a collision-free
digest: modelled by the identity on the fed byte string. -/
def sha256_digest (bytes : List Nat) : List Nat := bytes

/-- The errors raised by the core (all `ValueError` in the source, told
apart here by their message template). -/
inductive CopyError where
  /-- `'Can not copy from {source} because it is not a file.'` -/
  | notAFile (source : DPath)
  /-- `'Destination location {destination} is not a file.'` -/
  | destNotAFile (destination : DPath)
  /-- `'Destination file {destination} already exists.'` -/
  | alreadyExists (destination : DPath)
  /-- `'Can not copy directory {source} because it is a file.'` -/
  | notADirectory (source : DPath)
  /-- `'Can not copy directory {source} to file {destination}.'` -/
  | dirToFile (source destination : DPath)
deriving DecidableEq, Repr

/-- Errors raised by `Stats` accessors. -/
inductive StatsError where
  /-- `ValueError('Stats are not recorded yet. ...')` -/
  | notRecorded
  /-- Python `ZeroDivisionError` from `/` with a zero denominator. -/
  | zeroDivision
deriving DecidableEq, Repr

/-- Python's `/` on floats (modelled as rationals): raises
`ZeroDivisionError` when the denominator is zero. -/
def pyDiv (a b : ℚ) : Except StatsError ℚ :=
  if b = 0 then .error .zeroDivision else .ok (a / b)

/-- The `Stats` accumulator, lines 15-24 of `dcp.py`. -/
structure Stats where
  start_time : Option ℚ
  end_time : Option ℚ
  file_counter : Nat
  size_counter : Nat
deriving DecidableEq, Repr

/-- `Stats.speed`, lines 60-67: raise when either instant is unset,
otherwise `size_counter / (end_time - start_time)` with Python division
semantics. -/
def Stats.speed (s : Stats) : Except StatsError ℚ :=
  match s.start_time, s.end_time with
  | some st, some et => pyDiv (s.size_counter : ℚ) (et - st)
  | _, _ => .error .notRecorded

/-- The outcome of one core call: the filesystem and stats after it, and
the raised error if any. -/
abbrev CopyResult := FS × Stats × Option CopyError

/-- Lines 156-162 of `copy_file`: count the file, and unless `dry` create
the destination's parent directories and stream the source's bytes into the
destination (open `'wb'` truncates, so the final content is exactly the
streamed bytes). -/
def do_copy (source destination : DPath) (buffer_size : Nat) (dry : Bool)
    (fs : FS) (stats : Stats) (src_size : Nat) : CopyResult :=
  let stats' : Stats :=
    { stats with file_counter := stats.file_counter + 1,
                 size_counter := stats.size_counter + src_size }
  if dry then (fs, stats', none)
  else
    let fs' := FS.mkdirAll fs destination.parent
    let fs'' := FS.writeFile fs' destination
        (streamedBytes (FS.contentAt fs' source) buffer_size)
    (fs'', stats', none)

/-- `copy_file`, lines 128-162 of `dcp.py`, parameterised by the digest
function used in the content comparison (the source uses `sha256`).
Python's early returns and raises become nested conditionals; `answer`
stands for the reply `typer.confirm` would obtain; the locals `src_size`
and `dst_size` and the reassignment of `overwrite` are inlined. -/
def copy_fileH (hash : List Nat → List Nat) (source destination : DPath)
    (buffer_size : Nat) (overwrite : Option Bool) (dry : Bool) (answer : Bool)
    (fs : FS) (stats : Stats) : CopyResult :=
  if source = destination then (fs, stats, none)
  else if ¬ FS.existsAt fs source ∨ ¬ FS.isFileAt fs source then
    (fs, stats, some (.notAFile source))
  else if FS.existsAt fs destination then
    if ¬ FS.isFileAt fs destination then (fs, stats, some (.destNotAFile destination))
    else if FS.sizeAt fs source = FS.sizeAt fs destination ∧
        hash (streamedBytes (FS.contentAt fs source) buffer_size) =
          hash (streamedBytes (FS.contentAt fs destination) buffer_size) then
      (fs, stats, none)
    else if (if overwrite = none then some answer else overwrite) = some false then
      (fs, stats, some (.alreadyExists destination))
    else do_copy source destination buffer_size dry fs stats (FS.sizeAt fs source)
  else do_copy source destination buffer_size dry fs stats (FS.sizeAt fs source)

/-- `copy_file` as in the source: the digest is `sha256`. -/
def copy_file (source destination : DPath) (buffer_size : Nat)
    (overwrite : Option Bool) (dry : Bool) (answer : Bool)
    (fs : FS) (stats : Stats) : CopyResult :=
  copy_fileH sha256_digest source destination buffer_size overwrite dry answer fs stats

/-- The loop body of `copy_directory`, lines 119-125: visit each globbed
item, delegating files to `copy_file` (a raised error aborts the walk) and
creating directories unless `dry`. -/
def copy_items (destination : DPath) (src_len : Nat) (buffer_size : Nat)
    (overwrite : Option Bool) (dry : Bool) (answer : Bool) :
    List DPath → FS → Stats → CopyResult
  | [], f, st => (f, st, none)
  | item :: rest, f, st =>
    let dst_file := destination ++ item.drop src_len
    if FS.isFileAt f item then
      match copy_file item dst_file buffer_size overwrite dry answer f st with
      | (f', st', none) => copy_items destination src_len buffer_size overwrite dry answer rest f' st'
      | (f', st', some e) => (f', st', some e)
    else if ¬ dry then
      copy_items destination src_len buffer_size overwrite dry answer rest (FS.mkdirAll f dst_file) st
    else
      copy_items destination src_len buffer_size overwrite dry answer rest f st

/-- `copy_directory`, lines 109-125 of `dcp.py`. -/
def copy_directory (source destination : DPath) (buffer_size : Nat)
    (overwrite : Option Bool) (dry : Bool) (answer : Bool)
    (fs : FS) (stats : Stats) : CopyResult :=
  if ¬ FS.existsAt fs source ∨ ¬ FS.isDirAt fs source then
    (fs, stats, some (.notADirectory source))
  else if FS.existsAt fs destination ∧ FS.isFileAt fs destination then
    (fs, stats, some (.dirToFile source destination))
  else
    copy_items destination source.length buffer_size overwrite dry answer
      (FS.rglob fs source) fs stats

/-- The dispatcher `copy`, lines 91-101 of `dcp.py` (presentation lines
elided): open the stats window (`__enter__` records `t1`), route a file
source to `copy_file` — retargeting into an existing directory destination
by appending the source's base name — and any other source to
`copy_directory`, and close the window (`__exit__` records `t2`) whether or
not an error was raised. -/
def copy (source destination : DPath) (buffer : Nat) (overwrite : Option Bool)
    (dry : Bool) (answer : Bool) (t1 t2 : ℚ) (fs : FS) : CopyResult :=
  let stats : Stats := { start_time := some t1, end_time := none,
                         file_counter := 0, size_counter := 0 }
  let r :=
    if FS.isFileAt fs source then
      let dst := if FS.existsAt fs destination ∧ FS.isDirAt fs destination
        then destination ++ [DPath.name source] else destination
      copy_file source dst buffer overwrite dry answer fs stats
    else
      copy_directory source destination buffer overwrite dry answer fs stats
  (r.1, { r.2.1 with end_time := some t2 }, r.2.2)

/-- The guard conditions of `copy_file` under which control reaches the
Copy decision (the stats update at line 156): not a self-copy, the source
is a regular file, and any existing destination is a regular file whose
content comparison fails and whose overwrite resolution permits. -/
def reaches_copy_decision (source destination : DPath) (buffer_size : Nat)
    (overwrite : Option Bool) (answer : Bool) (fs : FS) : Prop :=
  source ≠ destination ∧
  FS.isFileAt fs source = true ∧
  (FS.existsAt fs destination = true →
    FS.isFileAt fs destination = true ∧
    ¬ (FS.sizeAt fs source = FS.sizeAt fs destination ∧
        sha256_digest (streamedBytes (FS.contentAt fs source) buffer_size) =
          sha256_digest (streamedBytes (FS.contentAt fs destination) buffer_size)) ∧
    (if overwrite = none then some answer else overwrite) ≠ some false)

instance (source destination : DPath) (buffer_size : Nat)
    (overwrite : Option Bool) (answer : Bool) (fs : FS) :
    Decidable (reaches_copy_decision source destination buffer_size overwrite answer fs) := by
  unfold reaches_copy_decision
  infer_instance

/-! ### Basic lemmas about the filesystem and streaming model -/

theorem FS.isFileAt_existsAt {fs : FS} {p : DPath}
    (h : FS.isFileAt fs p = true) : FS.existsAt fs p = true := by
  unfold FS.isFileAt at h
  unfold FS.existsAt
  cases hl : FS.lookup fs p with
  | none => rw [hl] at h; exact absurd h (by decide)
  | some e => simp [hl]

theorem FS.isDirAt_existsAt {fs : FS} {p : DPath}
    (h : FS.isDirAt fs p = true) : FS.existsAt fs p = true := by
  unfold FS.isDirAt at h
  unfold FS.existsAt
  cases hl : FS.lookup fs p with
  | none => rw [hl] at h; exact absurd h (by decide)
  | some e => simp [hl]

theorem FS.contentAt_congr_size {fs : FS} {p q : DPath}
    (h : FS.contentAt fs p = FS.contentAt fs q) : FS.sizeAt fs p = FS.sizeAt fs q := by
  unfold FS.sizeAt
  rw [h]

theorem process_stream_chunks_zero (c : List Nat) :
    process_stream_chunks c 0 = [] := by
  unfold process_stream_chunks
  simp

theorem streamedBytes_zero (c : List Nat) : streamedBytes c 0 = [] := by
  unfold streamedBytes
  rw [process_stream_chunks_zero]
  rfl

theorem streamedBytes_of_pos (c : List Nat) (b : Nat) : 0 < b → streamedBytes c b = c := by
  induction c, b using process_stream_chunks.induct with
  | case1 c => intro hb; omega
  | case2 b h1 => intro hb; simp [streamedBytes, process_stream_chunks]
  | case3 c b h1 h2 ih =>
    intro hb
    unfold streamedBytes at ih ⊢
    rw [process_stream_chunks]
    rw [dif_neg h1, dif_neg h2]
    rw [List.flatten_cons, ih hb, List.take_append_drop]

theorem FS.contentAt_writeFile (fs : FS) (p : DPath) (c : List Nat) :
    FS.contentAt (FS.writeFile fs p c) p = c := by
  unfold FS.contentAt FS.writeFile FS.lookup
  simp [List.find?]

theorem copy_file_self_eq (source destination : DPath) (buffer_size : Nat)
    (overwrite : Option Bool) (dry answer : Bool) (fs : FS) (stats : Stats)
    (h : source = destination) :
    copy_file source destination buffer_size overwrite dry answer fs stats =
      (fs, stats, none) := by
  unfold copy_file copy_fileH
  rw [if_pos h]

theorem do_copy_start_time (source destination : DPath) (buffer_size : Nat)
    (dry : Bool) (fs : FS) (stats : Stats) (src_size : Nat) :
    (do_copy source destination buffer_size dry fs stats src_size).2.1.start_time =
      stats.start_time := by
  unfold do_copy
  dsimp only
  split <;> rfl

theorem copy_fileH_start_time (hash : List Nat → List Nat)
    (source destination : DPath) (buffer_size : Nat) (overwrite : Option Bool)
    (dry answer : Bool) (fs : FS) (stats : Stats) :
    (copy_fileH hash source destination buffer_size overwrite dry answer fs stats).2.1.start_time =
      stats.start_time := by
  unfold copy_fileH
  repeat' split
  all_goals first | rfl | apply do_copy_start_time

theorem copy_items_start_time (destination : DPath) (src_len buffer_size : Nat)
    (overwrite : Option Bool) (dry answer : Bool) :
    ∀ (items : List DPath) (f : FS) (st : Stats),
      (copy_items destination src_len buffer_size overwrite dry answer items f st).2.1.start_time =
        st.start_time := by
  intro items
  induction items with
  | nil => intro f st; rfl
  | cons item rest ih =>
    intro f st
    unfold copy_items
    dsimp only
    have hcf : (copy_file item (destination ++ item.drop src_len) buffer_size overwrite dry
        answer f st).2.1.start_time = st.start_time :=
      copy_fileH_start_time sha256_digest item (destination ++ item.drop src_len)
        buffer_size overwrite dry answer f st
    split
    · rcases h : copy_file item (destination ++ item.drop src_len) buffer_size overwrite dry answer f st
        with ⟨f', st', err⟩
      rw [h] at hcf
      cases err with
      | none => rw [ih]; exact hcf
      | some e => exact hcf
    · split
      · rw [ih]
      · rw [ih]

theorem copy_directory_start_time (source destination : DPath) (buffer_size : Nat)
    (overwrite : Option Bool) (dry answer : Bool) (fs : FS) (stats : Stats) :
    (copy_directory source destination buffer_size overwrite dry answer fs stats).2.1.start_time =
      stats.start_time := by
  unfold copy_directory
  repeat' split
  all_goals first | rfl | apply copy_items_start_time

/-! ### Claim theorems -/

/-- C1: for every stats record whose measurement window is closed (both
instants set) with zero elapsed time, querying the throughput (`speed`)
yields a raised error — Python's zero-denominator division error — rather
than any quotient value. -/
theorem speed_zero_elapsed_raises (s : Stats) (st et : ℚ)
    (h1 : s.start_time = some st) (h2 : s.end_time = some et)
    (h3 : et - st = 0) :
    s.speed = Except.error StatsError.zeroDivision := by
  unfold Stats.speed
  rw [h1, h2]
  show pyDiv (s.size_counter : ℚ) (et - st) = Except.error StatsError.zeroDivision
  unfold pyDiv
  rw [if_pos h3]

theorem speed_zero_elapsed_raises_witness :
    Stats.speed ⟨some 1, some 1, 3, 100⟩ = Except.error StatsError.zeroDivision :=
  speed_zero_elapsed_raises ⟨some 1, some 1, 3, 100⟩ 1 1 rfl rfl (by ring)

/-- C4: when source and destination are the identical absolute path,
`copy_file` is a no-op: no error, filesystem unchanged, stats unchanged. -/
theorem copy_file_self_noop (source destination : DPath) (buffer_size : Nat)
    (overwrite : Option Bool) (dry answer : Bool) (fs : FS) (stats : Stats)
    (h : source = destination) :
    copy_file source destination buffer_size overwrite dry answer fs stats =
      (fs, stats, none) :=
  copy_file_self_eq source destination buffer_size overwrite dry answer fs stats h

theorem copy_file_self_noop_witness :
    copy_file ["home", "a.txt"] ["home", "a.txt"] 8192 (some true) false false
      [(["home", "a.txt"], Entry.file [10, 20])] ⟨none, none, 0, 0⟩ =
      ([(["home", "a.txt"], Entry.file [10, 20])], ⟨none, none, 0, 0⟩, none) :=
  copy_file_self_noop ["home", "a.txt"] ["home", "a.txt"] 8192 (some true) false false
    [(["home", "a.txt"], Entry.file [10, 20])] ⟨none, none, 0, 0⟩ rfl

/-- C3: when the destination exists as a regular file of the same size as
the source and with an equal whole-content digest, `copy_file` returns
without error, without touching the counters, and without writing. -/
theorem copy_file_identical_skip (source destination : DPath) (buffer_size : Nat)
    (overwrite : Option Bool) (dry answer : Bool) (fs : FS) (stats : Stats)
    (hs : FS.isFileAt fs source = true) (hd : FS.isFileAt fs destination = true)
    (hsize : FS.sizeAt fs source = FS.sizeAt fs destination)
    (hdig : sha256_digest (FS.contentAt fs source) =
      sha256_digest (FS.contentAt fs destination)) :
    copy_file source destination buffer_size overwrite dry answer fs stats =
      (fs, stats, none) := by
  have hc : FS.contentAt fs source = FS.contentAt fs destination := hdig
  by_cases he : source = destination
  · exact copy_file_self_eq source destination buffer_size overwrite dry answer fs stats he
  · unfold copy_file copy_fileH
    rw [if_neg he]
    rw [if_neg (show ¬ (¬ FS.existsAt fs source = true ∨ ¬ FS.isFileAt fs source = true) from
      fun hcon => hcon.elim (fun a => a (FS.isFileAt_existsAt hs)) (fun a => a hs))]
    rw [if_pos (FS.isFileAt_existsAt hd)]
    rw [if_neg (show ¬ ¬ FS.isFileAt fs destination = true from fun a => a hd)]
    rw [if_pos (show _ ∧ _ from ⟨hsize, by rw [hc]⟩)]

theorem copy_file_identical_skip_witness :
    copy_file ["s"] ["d"] 2 (some false) false false
      [(["s"], Entry.file [7, 8, 9]), (["d"], Entry.file [7, 8, 9])] ⟨none, none, 0, 0⟩ =
      ([(["s"], Entry.file [7, 8, 9]), (["d"], Entry.file [7, 8, 9])], ⟨none, none, 0, 0⟩, none) :=
  copy_file_identical_skip ["s"] ["d"] 2 (some false) false false
    [(["s"], Entry.file [7, 8, 9]), (["d"], Entry.file [7, 8, 9])] ⟨none, none, 0, 0⟩
    rfl rfl rfl rfl

/-- C2: when the destination exists as a regular file whose content (or
size) differs from the source and the overwrite policy is Never
(`overwrite=False`), `copy_file` raises the error naming the destination
and leaves the filesystem and the counters untouched.  The buffer size is
positive, as the `CopyRequest` data model requires. -/
theorem copy_file_never_conflict (source destination : DPath) (buffer_size : Nat)
    (dry answer : Bool) (fs : FS) (stats : Stats)
    (hb : 0 < buffer_size)
    (hs : FS.isFileAt fs source = true) (hd : FS.isFileAt fs destination = true)
    (hdiff : FS.contentAt fs source ≠ FS.contentAt fs destination ∨
      FS.sizeAt fs source ≠ FS.sizeAt fs destination) :
    copy_file source destination buffer_size (some false) dry answer fs stats =
      (fs, stats, some (CopyError.alreadyExists destination)) := by
  have hc : FS.contentAt fs source ≠ FS.contentAt fs destination := by
    rcases hdiff with h | h
    · exact h
    · exact fun hcc => h (FS.contentAt_congr_size hcc)
  have he : source ≠ destination := fun h => hc (by rw [h])
  unfold copy_file copy_fileH
  rw [if_neg he]
  rw [if_neg (show ¬ (¬ FS.existsAt fs source = true ∨ ¬ FS.isFileAt fs source = true) from
    fun hcon => hcon.elim (fun a => a (FS.isFileAt_existsAt hs)) (fun a => a hs))]
  rw [if_pos (FS.isFileAt_existsAt hd)]
  rw [if_neg (show ¬ ¬ FS.isFileAt fs destination = true from fun a => a hd)]
  rw [if_neg (show ¬ (FS.sizeAt fs source = FS.sizeAt fs destination ∧
      sha256_digest (streamedBytes (FS.contentAt fs source) buffer_size) =
        sha256_digest (streamedBytes (FS.contentAt fs destination) buffer_size)) from by
    rintro ⟨hsz, hdg⟩
    unfold sha256_digest at hdg
    rw [streamedBytes_of_pos _ _ hb, streamedBytes_of_pos _ _ hb] at hdg
    exact hc hdg)]
  rfl

theorem copy_file_never_conflict_witness :
    copy_file ["s"] ["d"] 1 (some false) false false
      [(["s"], Entry.file [1, 2]), (["d"], Entry.file [1, 3])] ⟨none, none, 0, 0⟩ =
      ([(["s"], Entry.file [1, 2]), (["d"], Entry.file [1, 3])], ⟨none, none, 0, 0⟩,
        some (CopyError.alreadyExists ["d"])) :=
  copy_file_never_conflict ["s"] ["d"] 1 false false
    [(["s"], Entry.file [1, 2]), (["d"], Entry.file [1, 3])] ⟨none, none, 0, 0⟩
    (by decide) rfl rfl (Or.inl (by decide))

theorem copy_file_reaches (source destination : DPath) (buffer_size : Nat)
    (overwrite : Option Bool) (dry answer : Bool) (fs : FS) (stats : Stats)
    (h : reaches_copy_decision source destination buffer_size overwrite answer fs) :
    copy_file source destination buffer_size overwrite dry answer fs stats =
      do_copy source destination buffer_size dry fs stats (FS.sizeAt fs source) := by
  obtain ⟨hne, hs, hdst⟩ := h
  unfold copy_file copy_fileH
  rw [if_neg hne]
  rw [if_neg (show ¬ (¬ FS.existsAt fs source = true ∨ ¬ FS.isFileAt fs source = true) from
    fun hcon => hcon.elim (fun a => a (FS.isFileAt_existsAt hs)) (fun a => a hs))]
  by_cases hex : FS.existsAt fs destination = true
  · obtain ⟨hdf, hnskip, how⟩ := hdst hex
    rw [if_pos hex]
    rw [if_neg (show ¬ ¬ FS.isFileAt fs destination = true from fun a => a hdf)]
    rw [if_neg hnskip]
    rw [if_neg how]
  · rw [if_neg hex]

/-- C5: with the dry-run flag set, an invocation of `copy_file` that
reaches the Copy decision increments `file_counter` by one and
`size_counter` by the source's byte length exactly as a real copy would,
while the filesystem is returned unchanged (no destination file or
directory is created or modified). -/
theorem copy_file_dry_run_counts (source destination : DPath) (buffer_size : Nat)
    (overwrite : Option Bool) (answer : Bool) (fs : FS) (stats : Stats)
    (h : reaches_copy_decision source destination buffer_size overwrite answer fs) :
    copy_file source destination buffer_size overwrite true answer fs stats =
      (fs, { stats with file_counter := stats.file_counter + 1,
                        size_counter := stats.size_counter + FS.sizeAt fs source }, none) := by
  rw [copy_file_reaches source destination buffer_size overwrite true answer fs stats h]
  rfl

theorem copy_file_dry_run_counts_witness :
    reaches_copy_decision ["s"] ["d"] 4096 (some true) false [(["s"], Entry.file [5, 6])] ∧
    copy_file ["s"] ["d"] 4096 (some true) true false
      [(["s"], Entry.file [5, 6])] ⟨some 0, none, 0, 0⟩ =
      ([(["s"], Entry.file [5, 6])], ⟨some 0, none, 1, 2⟩, none) :=
  ⟨by decide,
    copy_file_dry_run_counts ["s"] ["d"] 4096 (some true) false
      [(["s"], Entry.file [5, 6])] ⟨some 0, none, 0, 0⟩ (by decide)⟩

/-- C6: every top-level operation closes the measurement window exactly
once — the returned stats carry `end_time = some t2` (and `start_time =
some t1`) for every input, whether or not the underlying file or directory
copy raised an error. -/
theorem copy_closes_window (source destination : DPath) (buffer : Nat)
    (overwrite : Option Bool) (dry answer : Bool) (t1 t2 : ℚ) (fs : FS) :
    (copy source destination buffer overwrite dry answer t1 t2 fs).2.1.start_time = some t1 ∧
    (copy source destination buffer overwrite dry answer t1 t2 fs).2.1.end_time = some t2 := by
  constructor
  · unfold copy
    dsimp only
    split
    · exact copy_fileH_start_time sha256_digest _ _ _ _ _ _ _ _
    · exact copy_directory_start_time _ _ _ _ _ _ _ _
  · rfl

/-- C7: when the source is a regular file and the destination exists as a
directory, the dispatcher delegates to `copy_file` with the destination
retargeted to the file of the same base name inside that directory. -/
theorem copy_into_directory_retargets (source destination : DPath) (buffer : Nat)
    (overwrite : Option Bool) (dry answer : Bool) (t1 t2 : ℚ) (fs : FS)
    (hs : FS.isFileAt fs source = true)
    (hde : FS.existsAt fs destination = true) (hdir : FS.isDirAt fs destination = true) :
    copy source destination buffer overwrite dry answer t1 t2 fs =
      ((copy_file source (destination ++ [DPath.name source]) buffer overwrite dry answer fs
          ⟨some t1, none, 0, 0⟩).1,
        { (copy_file source (destination ++ [DPath.name source]) buffer overwrite dry answer fs
            ⟨some t1, none, 0, 0⟩).2.1 with end_time := some t2 },
        (copy_file source (destination ++ [DPath.name source]) buffer overwrite dry answer fs
          ⟨some t1, none, 0, 0⟩).2.2) := by
  unfold copy
  dsimp only
  rw [if_pos hs, if_pos (show FS.existsAt fs destination = true ∧
    FS.isDirAt fs destination = true from ⟨hde, hdir⟩)]

theorem copy_into_directory_retargets_witness :
    copy ["h", "a"] ["d"] 64 (some true) false false 1 2
      [(["h", "a"], Entry.file [9]), (["d"], Entry.dir)] =
      ((copy_file ["h", "a"] ["d", "a"] 64 (some true) false false
          [(["h", "a"], Entry.file [9]), (["d"], Entry.dir)] ⟨some 1, none, 0, 0⟩).1,
        { (copy_file ["h", "a"] ["d", "a"] 64 (some true) false false
            [(["h", "a"], Entry.file [9]), (["d"], Entry.dir)] ⟨some 1, none, 0, 0⟩).2.1
            with end_time := some 2 },
        (copy_file ["h", "a"] ["d", "a"] 64 (some true) false false
          [(["h", "a"], Entry.file [9]), (["d"], Entry.dir)] ⟨some 1, none, 0, 0⟩).2.2) :=
  copy_into_directory_retargets ["h", "a"] ["d"] 64 (some true) false false 1 2
    [(["h", "a"], Entry.file [9]), (["d"], Entry.dir)] rfl rfl rfl

/-- C8: when source and destination are regular files of different sizes,
the result of `copy_file` is the same for every digest function — no
content is hashed — and it is exactly the overwrite decision followed, when
permitted, by the copy action. -/
theorem copy_file_size_mismatch_no_hash (source destination : DPath) (buffer_size : Nat)
    (overwrite : Option Bool) (dry answer : Bool) (fs : FS) (stats : Stats)
    (hs : FS.isFileAt fs source = true) (hd : FS.isFileAt fs destination = true)
    (hsz : FS.sizeAt fs source ≠ FS.sizeAt fs destination) :
    ∀ hash : List Nat → List Nat,
      copy_fileH hash source destination buffer_size overwrite dry answer fs stats =
        (if (if overwrite = none then some answer else overwrite) = some false then
          (fs, stats, some (CopyError.alreadyExists destination))
        else do_copy source destination buffer_size dry fs stats (FS.sizeAt fs source)) := by
  intro hash
  have he : source ≠ destination := fun h => hsz (by rw [h])
  unfold copy_fileH
  rw [if_neg he]
  rw [if_neg (show ¬ (¬ FS.existsAt fs source = true ∨ ¬ FS.isFileAt fs source = true) from
    fun hcon => hcon.elim (fun a => a (FS.isFileAt_existsAt hs)) (fun a => a hs))]
  rw [if_pos (FS.isFileAt_existsAt hd)]
  rw [if_neg (show ¬ ¬ FS.isFileAt fs destination = true from fun a => a hd)]
  rw [if_neg (show ¬ (FS.sizeAt fs source = FS.sizeAt fs destination ∧
      hash (streamedBytes (FS.contentAt fs source) buffer_size) =
        hash (streamedBytes (FS.contentAt fs destination) buffer_size)) from
    fun hand => hsz hand.1)]

theorem copy_file_size_mismatch_no_hash_witness :
    copy_fileH (fun _ => []) ["s"] ["d"] 3 (some false) false false
      [(["s"], Entry.file [1]), (["d"], Entry.file [2, 3])] ⟨none, none, 0, 0⟩ =
      ([(["s"], Entry.file [1]), (["d"], Entry.file [2, 3])], ⟨none, none, 0, 0⟩,
        some (CopyError.alreadyExists ["d"])) :=
  copy_file_size_mismatch_no_hash ["s"] ["d"] 3 (some false) false false
    [(["s"], Entry.file [1]), (["d"], Entry.file [2, 3])] ⟨none, none, 0, 0⟩
    rfl rfl (by decide) (fun _ => [])

/-- C9: `copy_directory` fails with the "is a file, not a directory" error
when the source is missing or not a directory, and with the "cannot copy
directory to file" error when the source is a directory but the destination
exists as a regular file; in both cases the filesystem and the counters are
returned untouched. -/
theorem copy_directory_preconditions (source destination : DPath) (buffer_size : Nat)
    (overwrite : Option Bool) (dry answer : Bool) (fs : FS) (stats : Stats) :
    ((¬ FS.existsAt fs source = true ∨ ¬ FS.isDirAt fs source = true) →
      copy_directory source destination buffer_size overwrite dry answer fs stats =
        (fs, stats, some (CopyError.notADirectory source))) ∧
    (FS.isDirAt fs source = true → FS.existsAt fs destination = true →
      FS.isFileAt fs destination = true →
      copy_directory source destination buffer_size overwrite dry answer fs stats =
        (fs, stats, some (CopyError.dirToFile source destination))) := by
  constructor
  · intro h
    unfold copy_directory
    rw [if_pos h]
  · intro hsd hde hdf
    unfold copy_directory
    rw [if_neg (show ¬ (¬ FS.existsAt fs source = true ∨ ¬ FS.isDirAt fs source = true) from
      fun hcon => hcon.elim (fun a => a (FS.isDirAt_existsAt hsd)) (fun a => a hsd))]
    rw [if_pos (show FS.existsAt fs destination = true ∧ FS.isFileAt fs destination = true from
      ⟨hde, hdf⟩)]

theorem copy_directory_preconditions_witness :
    copy_directory ["s"] ["d"] 1 none false false
      [(["s"], Entry.file [1])] ⟨none, none, 0, 0⟩ =
      ([(["s"], Entry.file [1])], ⟨none, none, 0, 0⟩,
        some (CopyError.notADirectory ["s"])) ∧
    copy_directory ["s2"] ["d2"] 1 none false false
      [(["s2"], Entry.dir), (["d2"], Entry.file [1])] ⟨none, none, 0, 0⟩ =
      ([(["s2"], Entry.dir), (["d2"], Entry.file [1])], ⟨none, none, 0, 0⟩,
        some (CopyError.dirToFile ["s2"] ["d2"])) :=
  ⟨(copy_directory_preconditions ["s"] ["d"] 1 none false false
      [(["s"], Entry.file [1])] ⟨none, none, 0, 0⟩).1 (by decide),
    (copy_directory_preconditions ["s2"] ["d2"] 1 none false false
      [(["s2"], Entry.dir), (["d2"], Entry.file [1])] ⟨none, none, 0, 0⟩).2 rfl rfl rfl⟩

/-- C10: the positive-buffer precondition is nowhere validated.  With a
buffer chunk size of 0: `process_stream` invokes its callback zero times on
every stream; `copy_file`'s comparison of two same-sized regular files sees
two empty digests and skips them as content-identical regardless of their
contents; and a copy that is performed leaves an empty destination file. -/
theorem buffer_zero_no_validation :
    (∀ content : List Nat, process_stream_chunks content 0 = []) ∧
    (∀ (source destination : DPath) (overwrite : Option Bool) (dry answer : Bool)
        (fs : FS) (stats : Stats),
      FS.isFileAt fs source = true → FS.isFileAt fs destination = true →
      FS.sizeAt fs source = FS.sizeAt fs destination →
      copy_file source destination 0 overwrite dry answer fs stats = (fs, stats, none)) ∧
    (∀ (source destination : DPath) (overwrite : Option Bool) (answer : Bool)
        (fs : FS) (stats : Stats),
      reaches_copy_decision source destination 0 overwrite answer fs →
      FS.contentAt (copy_file source destination 0 overwrite false answer fs stats).1
        destination = []) := by
  refine ⟨process_stream_chunks_zero, ?_, ?_⟩
  · intro source destination overwrite dry answer fs stats hs hd hsize
    by_cases he : source = destination
    · exact copy_file_self_eq source destination 0 overwrite dry answer fs stats he
    · unfold copy_file copy_fileH
      rw [if_neg he]
      rw [if_neg (show ¬ (¬ FS.existsAt fs source = true ∨ ¬ FS.isFileAt fs source = true) from
        fun hcon => hcon.elim (fun a => a (FS.isFileAt_existsAt hs)) (fun a => a hs))]
      rw [if_pos (FS.isFileAt_existsAt hd)]
      rw [if_neg (show ¬ ¬ FS.isFileAt fs destination = true from fun a => a hd)]
      rw [if_pos (show FS.sizeAt fs source = FS.sizeAt fs destination ∧
          sha256_digest (streamedBytes (FS.contentAt fs source) 0) =
            sha256_digest (streamedBytes (FS.contentAt fs destination) 0) from
        ⟨hsize, by rw [streamedBytes_zero, streamedBytes_zero]⟩)]
  · intro source destination overwrite answer fs stats hreach
    rw [copy_file_reaches source destination 0 overwrite false answer fs stats hreach]
    show FS.contentAt (FS.writeFile (FS.mkdirAll fs (DPath.parent destination)) destination
      (streamedBytes (FS.contentAt (FS.mkdirAll fs (DPath.parent destination)) source) 0))
      destination = []
    rw [FS.contentAt_writeFile]
    exact streamedBytes_zero _

theorem buffer_zero_no_validation_witness :
    process_stream_chunks [1, 2, 3] 0 = [] ∧
    copy_file ["s"] ["d"] 0 (some false) false false
      [(["s"], Entry.file [1, 2]), (["d"], Entry.file [3, 4])] ⟨none, none, 0, 0⟩ =
      ([(["s"], Entry.file [1, 2]), (["d"], Entry.file [3, 4])], ⟨none, none, 0, 0⟩, none) ∧
    FS.contentAt (copy_file ["s"] ["e"] 0 (some true) false false
      [(["s"], Entry.file [1, 2])] ⟨none, none, 0, 0⟩).1 ["e"] = [] :=
  ⟨buffer_zero_no_validation.1 [1, 2, 3],
    buffer_zero_no_validation.2.1 ["s"] ["d"] (some false) false false
      [(["s"], Entry.file [1, 2]), (["d"], Entry.file [3, 4])] ⟨none, none, 0, 0⟩ rfl rfl rfl,
    buffer_zero_no_validation.2.2 ["s"] ["e"] (some true) false
      [(["s"], Entry.file [1, 2])] ⟨none, none, 0, 0⟩ (by decide)⟩
